import Mathlib

set_option maxRecDepth 8000

/-!
Verification of the sfnw-backend webhook services: a shallow embedding of
`src/main.py` (the Maxi telephony webhook handler) and `src/Main.py` (the
SolarFactsNW booking endpoint), together with theorems settling the
specification's claims about them.

External collaborators (Google Calendar, Twilio, SMTP, the HTTP layer) are
modelled as values of a `World` record injected into each handler, with every
outbound call recorded as an `Effect`.  Python standard-library routines the
code relies on (`datetime.fromisoformat`, `datetime.strftime`,
`str.replace('Z', '+00:00')`, string truthiness) are modelled as executable
Lean functions restricted to the shapes the code exercises.
-/

deriving instance DecidableEq for Except

namespace SfnwBackend

/-! ## String utilities (models of Python `str` operations) -/

/-- Boolean prefix test on character lists. -/
def isPrefixCh : List Char → List Char → Bool
  | [], _ => true
  | _ :: _, [] => false
  | a :: as, b :: bs => a == b && isPrefixCh as bs

/-- Boolean substring test: does `n` occur contiguously inside `h`? -/
def containsSub (h n : List Char) : Bool :=
  match h with
  | [] => isPrefixCh n []
  | c :: t => isPrefixCh n (c :: t) || containsSub t n

/-- Predicate `strContains hay needle`: `needle` occurs as a contiguous substring of
`hay` (model of Python's `in` operator on strings). -/
def strContains (hay needle : String) : Bool :=
  containsSub hay.data needle.data

theorem string_data_append (a b : String) : (a ++ b).data = a.data ++ b.data := by
  cases a; cases b; rfl

theorem isPrefixCh_append_self (n t : List Char) : isPrefixCh n (n ++ t) = true := by
  induction n with
  | nil => rfl
  | cons c cs ih => simp [isPrefixCh, ih]

theorem isPrefixCh_extend (n : List Char) : ∀ h b, isPrefixCh n h = true →
    isPrefixCh n (h ++ b) = true := by
  induction n with
  | nil => intro h b _; rfl
  | cons c cs ih =>
    intro h b hp
    cases h with
    | nil => simp [isPrefixCh] at hp
    | cons x xs =>
      simp only [isPrefixCh, Bool.and_eq_true, beq_iff_eq] at hp
      simp only [List.cons_append, isPrefixCh, Bool.and_eq_true, beq_iff_eq]
      exact ⟨hp.1, ih xs b hp.2⟩

theorem containsSub_nil (h : List Char) : containsSub h [] = true := by
  cases h <;> simp [containsSub, isPrefixCh]

theorem containsSub_append_left (h b n : List Char) (hc : containsSub h n = true) :
    containsSub (h ++ b) n = true := by
  induction h with
  | nil =>
    cases n with
    | nil => exact containsSub_nil b
    | cons c cs => simp [containsSub, isPrefixCh] at hc
  | cons c t ih =>
    simp only [containsSub, Bool.or_eq_true] at hc
    simp only [List.cons_append, containsSub, Bool.or_eq_true]
    rcases hc with hp | hrec
    · exact Or.inl (isPrefixCh_extend n (c :: t) b hp)
    · exact Or.inr (ih hrec)

theorem containsSub_append_right (a h n : List Char) (hc : containsSub h n = true) :
    containsSub (a ++ h) n = true := by
  induction a with
  | nil => exact hc
  | cons c t ih =>
    simp only [List.cons_append, containsSub, Bool.or_eq_true]
    exact Or.inr ih

theorem containsSub_self (n : List Char) : containsSub n n = true := by
  cases n with
  | nil => rfl
  | cons c t =>
    have h := isPrefixCh_append_self (c :: t) []
    rw [List.append_nil] at h
    simp [containsSub, h]

theorem strContains_append_left (a b n : String) (h : strContains a n = true) :
    strContains (a ++ b) n = true := by
  unfold strContains at h ⊢
  rw [string_data_append]
  exact containsSub_append_left _ _ _ h

theorem strContains_append_right (a b n : String) (h : strContains b n = true) :
    strContains (a ++ b) n = true := by
  unfold strContains at h ⊢
  rw [string_data_append]
  exact containsSub_append_right _ _ _ h

theorem strContains_self (n : String) : strContains n n = true :=
  containsSub_self n.data

/-- The string `needle` occurs at the junction of `a ++ (needle ++ b)`. -/
theorem strContains_middle (a b n : String) : strContains (a ++ (n ++ b)) n = true :=
  strContains_append_right _ _ _ (strContains_append_left _ _ _ (strContains_self n))

/-- Model of joining accumulated validation-error messages line by line, as
`str(pydantic.ValidationError)` presents one failing field per line. -/
def joinLines : List String → String
  | [] => ""
  | [e] => e
  | e :: rest => e ++ ("\n" ++ joinLines rest)

theorem strContains_joinLines_head (e : String) (rest : List String) (sub : String)
    (h : strContains e sub = true) : strContains (joinLines (e :: rest)) sub = true := by
  cases rest with
  | nil => simpa [joinLines] using h
  | cons r rs =>
    show strContains (e ++ ("\n" ++ joinLines (r :: rs))) sub = true
    exact strContains_append_left _ _ _ h

/-- Model of Python `str.replace('Z', '+00:00')` on character lists: the
pattern is the single character `Z`, so replacement is pointwise over the
string (every occurrence, not only a trailing one, exactly as in the code). -/
def replaceZch : List Char → List Char
  | [] => []
  | c :: rest =>
    if c = 'Z' then '+' :: '0' :: '0' :: ':' :: '0' :: '0' :: replaceZch rest
    else c :: replaceZch rest

/-- Model of `v.replace('Z', '+00:00')` as used throughout `src/main.py`. -/
def pyReplaceZ (s : String) : String := ⟨replaceZch s.data⟩

theorem replaceZch_append (a b : List Char) :
    replaceZch (a ++ b) = replaceZch a ++ replaceZch b := by
  induction a with
  | nil => rfl
  | cons c t ih => by_cases h : c = 'Z' <;> simp [replaceZch, h, ih]

theorem replaceZch_of_not_mem (a : List Char) (h : 'Z' ∉ a) : replaceZch a = a := by
  induction a with
  | nil => rfl
  | cons c t ih =>
    rw [List.mem_cons, not_or] at h
    have hc : ¬ c = 'Z' := fun hh => h.1 hh.symm
    simp [replaceZch, hc, ih h.2]

/-- Model of Python string truthiness for `Optional[str]` fields: `None` and
the empty string are falsy. -/
def optTruthy : Option String → Bool
  | none => false
  | some s => s ≠ ""

/-- Model of Python `a or b` for an optional string `a` and default `b`
(used for `payload.customer_name or "Valued Customer"` and the like). -/
def pyOr (a : Option String) (b : String) : String :=
  match a with
  | some s => if s = "" then b else s
  | none => b

/-- Model of Python `str.lstrip(c)`: drop leading occurrences of `c`. -/
def pyLstripCh (c : Char) : List Char → List Char
  | [] => []
  | x :: xs => if x = c then pyLstripCh c xs else x :: xs

def pyLstrip (c : Char) (s : String) : String := ⟨pyLstripCh c s.data⟩

/-! ## Datetime model (Python `datetime` as used by the code)

The code parses timestamps with `datetime.fromisoformat` (after replacing
`Z` by `+00:00`), formats them with `strftime`, adds fixed `timedelta`s and
re-serialises with `isoformat`.  We model an aware-or-naive datetime value
and those four stdlib operations, restricted to the grammar Python 3.10's
`fromisoformat` accepts: `YYYY-MM-DD`, optionally followed by a single
separator character and `HH[:MM[:SS[.fff[fff]]]]`, optionally followed by a
`±HH:MM` UTC offset. -/

structure PyDateTime where
  year : Nat
  month : Nat
  day : Nat
  hour : Nat := 0
  minute : Nat := 0
  second : Nat := 0
  microsecond : Nat := 0
  /-- Field is `none` for a naive datetime, `some m` for a fixed UTC offset of `m`
  minutes (Python `timezone(timedelta(minutes=m))`). -/
  tzoffsetMinutes : Option Int := none
deriving DecidableEq, Repr

def isLeapYear (y : Nat) : Bool :=
  y % 4 = 0 && (y % 100 ≠ 0 || y % 400 = 0)

def daysInMonth (y m : Nat) : Nat :=
  if m = 2 then (if isLeapYear y then 29 else 28)
  else if m = 4 || m = 6 || m = 9 || m = 11 then 30
  else 31

/-- Read exactly two ASCII digits. -/
def take2 : List Char → Option (Nat × List Char)
  | a :: b :: rest =>
    if a.isDigit && b.isDigit then
      some ((a.toNat - 48) * 10 + (b.toNat - 48), rest)
    else none
  | _ => none

/-- Read exactly four ASCII digits. -/
def take4 : List Char → Option (Nat × List Char)
  | a :: b :: c :: d :: rest =>
    if a.isDigit && b.isDigit && c.isDigit && d.isDigit then
      some ((a.toNat - 48) * 1000 + (b.toNat - 48) * 100 +
            (c.toNat - 48) * 10 + (d.toNat - 48), rest)
    else none
  | _ => none

def expectCh (c : Char) : List Char → Option (List Char)
  | x :: rest => if x = c then some rest else none
  | _ => none

/-- Read a maximal run of ASCII digits. -/
def takeDigits : List Char → (List Nat × List Char)
  | [] => ([], [])
  | c :: rest =>
    if c.isDigit then
      let (ds, r) := takeDigits rest
      ((c.toNat - 48) :: ds, r)
    else ([], c :: rest)

def digitsToNat (ds : List Nat) : Nat :=
  ds.foldl (fun acc d => acc * 10 + d) 0

/-- Fractional-second part: Python 3.10 accepts exactly 3 or 6 digits after
the dot, yielding microseconds. -/
def parseFrac (cs : List Char) : Option (Nat × List Char) :=
  match cs with
  | '.' :: rest =>
    let (ds, r) := takeDigits rest
    if ds.length = 3 then some (digitsToNat ds * 1000, r)
    else if ds.length = 6 then some (digitsToNat ds, r)
    else none
  | _ => some (0, cs)

/-- Time part `HH[:MM[:SS[.frac]]]` (optional at each level). -/
def parseTimePart (cs : List Char) : Option (Nat × Nat × Nat × Nat × List Char) :=
  match take2 cs with
  | none => none
  | some (h, r1) =>
    match expectCh ':' r1 with
    | none => some (h, 0, 0, 0, r1)
    | some r2 =>
      match take2 r2 with
      | none => none
      | some (mi, r3) =>
        match expectCh ':' r3 with
        | none => some (h, mi, 0, 0, r3)
        | some r4 =>
          match take2 r4 with
          | none => none
          | some (s, r5) =>
            match parseFrac r5 with
            | none => none
            | some (us, r6) => some (h, mi, s, us, r6)

/-- Optional trailing `±HH:MM` UTC offset; must consume the rest of the
string. -/
def parseOffsetPart (cs : List Char) : Option (Option Int) :=
  match cs with
  | [] => some none
  | sign :: rest =>
    if sign = '+' || sign = '-' then
      match take2 rest with
      | none => none
      | some (oh, r1) =>
        match expectCh ':' r1 with
        | none => none
        | some r2 =>
          match take2 r2 with
          | none => none
          | some (om, r3) =>
            if r3 = [] && oh * 60 + om < 1440 then
              some (some (if sign = '+' then (oh * 60 + om : Int) else -(oh * 60 + om : Int)))
            else none
    else none

/-- Model of Python 3.10 `datetime.fromisoformat`.  Notable fidelity points:
any single character is accepted as the date/time separator, and range
checks mirror the `datetime` constructor (`1 ≤ year ≤ 9999`, real calendar
day, `hour < 24`, `minute, second < 60`, `|offset| < 24h`). -/
def fromisoformat (s : String) : Option PyDateTime :=
  match take4 s.data with
  | none => none
  | some (y, r1) =>
    match expectCh '-' r1 with
    | none => none
    | some r2 =>
      match take2 r2 with
      | none => none
      | some (mo, r3) =>
        match expectCh '-' r3 with
        | none => none
        | some r4 =>
          match take2 r4 with
          | none => none
          | some (d, r5) =>
            if 1 ≤ y ∧ y ≤ 9999 ∧ 1 ≤ mo ∧ mo ≤ 12 ∧ 1 ≤ d ∧ d ≤ daysInMonth y mo then
              match r5 with
              | [] => some { year := y, month := mo, day := d }
              | _sep :: tcs =>
                match parseTimePart tcs with
                | none => none
                | some (h, mi, sec, us, r6) =>
                  match parseOffsetPart r6 with
                  | none => none
                  | some off =>
                    if h < 24 ∧ mi < 60 ∧ sec < 60 then
                      some { year := y, month := mo, day := d, hour := h,
                             minute := mi, second := sec, microsecond := us,
                             tzoffsetMinutes := off }
                    else none
            else none

/-! ### `strftime` pieces (C locale, as Python defaults to) -/

def weekdayNames : List String :=
  ["Sunday", "Monday", "Tuesday", "Wednesday", "Thursday", "Friday", "Saturday"]

def monthNames : List String :=
  ["January", "February", "March", "April", "May", "June", "July",
   "August", "September", "October", "November", "December"]

/-- Day of week for a Gregorian date, `0 = Sunday` (Sakamoto's method). -/
def dayOfWeek (y m d : Nat) : Nat :=
  let t : List Nat := [0, 3, 2, 5, 0, 3, 5, 1, 4, 6, 2, 4]
  let y := if m < 3 then y - 1 else y
  (y + y / 4 + y / 400 + t.getD (m - 1) 0 + d - y / 100) % 7

def pad2 (n : Nat) : String := if n < 10 then "0" ++ toString n else toString n

def pad4 (n : Nat) : String :=
  if n < 10 then "000" ++ toString n
  else if n < 100 then "00" ++ toString n
  else if n < 1000 then "0" ++ toString n
  else toString n

def weekdayName (dt : PyDateTime) : String :=
  weekdayNames.getD (dayOfWeek dt.year dt.month dt.day) ""

def monthName (dt : PyDateTime) : String := monthNames.getD (dt.month - 1) ""

/-- Directive `%I`: 12-hour clock, zero-padded. -/
def hour12 (h : Nat) : String :=
  let h' := h % 12
  pad2 (if h' = 0 then 12 else h')

/-- Directive `%p`: AM/PM. -/
def amPm (h : Nat) : String := if h < 12 then "AM" else "PM"

/-- Directive `%Z`: empty for a naive datetime; `UTC` for offset zero; `UTC±HH:MM`
otherwise (Python `timezone.tzname`). -/
def tzName : Option Int → String
  | none => ""
  | some off =>
    if off = 0 then "UTC"
    else "UTC" ++ (if off > 0 then "+" else "-") ++
      pad2 (off.natAbs / 60) ++ ":" ++ pad2 (off.natAbs % 60)

/-- Rendering `dt.strftime("%A, %B %d at %I:%M %p")` — the SMS time rendering shared by
`format_sms_message` (src/main.py) and `book_appointment` (src/Main.py). -/
def strftimeSmsDate (dt : PyDateTime) : String :=
  weekdayName dt ++ ", " ++ monthName dt ++ " " ++ pad2 dt.day ++ " at " ++
    hour12 dt.hour ++ ":" ++ pad2 dt.minute ++ " " ++ amPm dt.hour

/-- Rendering `dt.strftime("%A, %B %d, %Y")` — the email date rendering. -/
def strftimeEmailDate (dt : PyDateTime) : String :=
  weekdayName dt ++ ", " ++ monthName dt ++ " " ++ pad2 dt.day ++ ", " ++ pad4 dt.year

/-- Rendering `dt.strftime("%I:%M %p %Z")` — the email time rendering (note the
trailing space when the datetime is naive and `%Z` renders empty). -/
def strftimeEmailTime (dt : PyDateTime) : String :=
  hour12 dt.hour ++ ":" ++ pad2 dt.minute ++ " " ++ amPm dt.hour ++ " " ++
    tzName dt.tzoffsetMinutes

/-- Model of `timedelta` addition for the sub-day durations the code uses (30 and 60
minutes); rolls over at most one day and hence at most one month boundary. -/
def addMinutes (dt : PyDateTime) (mins : Nat) : PyDateTime :=
  let total := dt.minute + mins
  let minute := total % 60
  let hourT := dt.hour + total / 60
  let hour := hourT % 24
  let dayT := dt.day + hourT / 24
  if dayT ≤ daysInMonth dt.year dt.month then
    { dt with minute := minute, hour := hour, day := dayT }
  else if dt.month = 12 then
    { dt with minute := minute, hour := hour, day := dayT - daysInMonth dt.year dt.month,
              month := 1, year := dt.year + 1 }
  else
    { dt with minute := minute, hour := hour, day := dayT - daysInMonth dt.year dt.month,
              month := dt.month + 1 }

/-- Offset suffix of `datetime.isoformat` for an aware datetime. -/
def isoOffsetSuffix : Option Int → String
  | none => ""
  | some off =>
    (if off ≥ 0 then "+" else "-") ++ pad2 (off.natAbs / 60) ++ ":" ++ pad2 (off.natAbs % 60)

/-- Model of `datetime.isoformat()`: seconds always printed, microseconds
printed as six digits only when nonzero, offset appended when aware. -/
def pyIsoformat (dt : PyDateTime) : String :=
  pad4 dt.year ++ "-" ++ pad2 dt.month ++ "-" ++ pad2 dt.day ++ "T" ++
    pad2 dt.hour ++ ":" ++ pad2 dt.minute ++ ":" ++ pad2 dt.second ++
    (if dt.microsecond = 0 then "" else
      "." ++ pad4 (dt.microsecond / 100) ++ pad2 (dt.microsecond % 100)) ++
    isoOffsetSuffix dt.tzoffsetMinutes

example : fromisoformat "2025-06-02T15:00:00+00:00" =
    some { year := 2025, month := 6, day := 2, hour := 15, minute := 0,
           second := 0, microsecond := 0, tzoffsetMinutes := some 0 } := by decide

example : fromisoformat "2025-03-04T15:00:00" =
    some { year := 2025, month := 3, day := 4, hour := 15 } := by decide

example : fromisoformat "bogus" = none := by decide

example : fromisoformat "2025-02-30T10:00:00" = none := by decide

example : pyReplaceZ "2025-06-02T15:00:00Z" = "2025-06-02T15:00:00+00:00" := by decide

example : strftimeSmsDate { year := 2025, month := 3, day := 4, hour := 15 } =
    "Tuesday, March 04 at 03:00 PM" := by decide

example :
    pyIsoformat
      { year := 2025, month := 6, day := 2, hour := 15, tzoffsetMinutes := some 0 } =
      "2025-06-02T15:00:00+00:00" := by decide

/-! ## Model of `src/main.py` (Maxi telephony webhook handler) -/

/-- Process-wide configuration read from the environment at startup.  The
`TWILIO_*` settings use `os.environ.get(name, "")`, so absence is the empty
string; the email and Google settings use `os.environ.get(name)`, so absence
is `none`.  `twilioInitOk` records whether the `Client(...)` constructor run
at import time succeeded. -/
structure Config where
  twilio_sid : String := ""
  twilio_auth : String := ""
  twilio_number : String := ""
  twilioInitOk : Bool := true
  google_b64 : Option String := none
  google_calendar_id : Option String := none
  email_from : Option String := none
  email_password : Option String := none
deriving DecidableEq, Repr

/-- Whether the module-level `twilio_client` is non-`None`: both credentials
truthy and the constructor did not raise (src/main.py lines 200-206). -/
def twilioClientPresent (cfg : Config) : Bool :=
  cfg.twilio_sid ≠ "" && cfg.twilio_auth ≠ "" && cfg.twilioInitOk

/-- Truthiness of `EMAIL_FROM and EMAIL_PASSWORD` (lines 276-284). -/
def emailConfigured (cfg : Config) : Bool :=
  optTruthy cfg.email_from && optTruthy cfg.email_password

/-- The calendar provider's response to an insert (`created_event.get("id")`
and `.get("htmlLink")` are dictionary lookups, hence optional). -/
structure CalendarEvent where
  id : Option String := none
  htmlLink : Option String := none
deriving DecidableEq, Repr

/-- The event draft sent to the calendar provider.  The fixed reminder
configuration (email 24h before, popup 30min before, `useDefault: false`)
and `sendUpdates="all"` are constants left out of the model. -/
structure CalendarEventBody where
  summary : String
  description : String
  location : Option String := none
  startDateTime : String
  endDateTime : String
  timeZone : String
  attendees : List String := []
deriving DecidableEq, Repr

/-- One outbound call to an external provider. -/
inductive Effect where
  | calendarInsert (calendarId : String) (body : CalendarEventBody)
  | smsSend (dest : String) (fromNumber : String) (body : String)
  | emailSend (dest : String) (subject : String) (plainBody : String) (htmlBody : String)
deriving DecidableEq, Repr

/-- Outcomes of the external collaborators for one request, injected so the
handler can be analysed under any combination of provider successes and
failures. -/
structure World where
  /-- Whether `get_calendar_service` succeeds once the credential env var is
  present (decoding the credentials or building the API client can raise). -/
  googleBuildOk : Bool := true
  calendarInsertResult : Except String CalendarEvent := .ok {}
  twilioCreateResult : Except String String := .ok "SM0"
  smtpOk : Bool := true
deriving Repr

/-- Model of `get_calendar_service` (lines 78-103): raises when the base64
credential env var is absent or empty, or when decoding / client
construction fails. -/
def get_calendar_service (cfg : Config) (w : World) : Except String Unit :=
  if ¬ optTruthy cfg.google_b64 then
    .error "Google Calendar credentials not configured"
  else if w.googleBuildOk then .ok () else .error "service build failed"

/-- Model of `WebhookPayload.validate_phone` (lines 53-62): returns the
original value unchanged when valid.  Python's `str.isdigit` is modelled as
the ASCII digit test, matching it on all ASCII inputs. -/
def validate_phone (v : String) : Except String String :=
  if v = "" || v.length < 10 then
    .error "Phone number must be at least 10 digits"
  else if (v.data.filter Char.isDigit).length < 10 then
    .error "Phone number must contain at least 10 digits"
  else .ok v

/-- Model of `WebhookPayload.validate_datetime` (lines 64-72): `None` and
the empty string skip the check (`if v:`); otherwise the `Z`-replaced string
must parse with `fromisoformat`. -/
def validate_datetime (v : Option String) : Except String (Option String) :=
  match v with
  | none => .ok none
  | some s =>
    if s = "" then .ok (some s)
    else
      match fromisoformat (pyReplaceZ s) with
      | some _ => .ok (some s)
      | none => .error "callback_time must be valid ISO 8601 datetime"

/-- Pydantic's `EmailStr` syntactic check is external library code; it is
injected as a predicate. -/
def validate_email (emailOk : String → Bool) (v : Option String) :
    Except String (Option String) :=
  match v with
  | none => .ok none
  | some s =>
    if emailOk s then .ok (some s) else .error "value is not a valid email address"

/-- The `WebhookPayload` fields, as they arrive in the JSON body. -/
structure RawPayload where
  caller : String
  summary : Option String := none
  transcript : Option String := none
  intent : Option String := none
  callback_time : Option String := none
  email : Option String := none
  customer_name : Option String := none
deriving DecidableEq, Repr

def errsOf {α : Type} : Except String α → List String
  | .error e => [e]
  | .ok _ => []

/-- Model of `WebhookPayload(**raw_data)`: run the field validators,
aggregating failures in field-declaration order as pydantic does; on success
the model holds exactly the values the validators returned. -/
def webhookValidate (emailOk : String → Bool) (p : RawPayload) :
    Except String RawPayload :=
  match validate_phone p.caller, validate_datetime p.callback_time,
        validate_email emailOk p.email with
  | .ok c, .ok ct, .ok em => .ok { p with caller := c, callback_time := ct, email := em }
  | r1, r2, r3 => .error (joinLines (errsOf r1 ++ errsOf r2 ++ errsOf r3))

/-- The `except` branch of `format_sms_message`. -/
def smsFallback (customer_name : String) : String :=
  "Hi " ++ customer_name ++ "! Your appointment has been scheduled. We\x27ll see you soon!"

/-- Model of `format_sms_message` (lines 241-270). -/
def format_sms_message (customer_name callback_time summary : String) : String :=
  match fromisoformat (pyReplaceZ callback_time) with
  | some dt =>
    "Hi " ++ customer_name ++ "!\n\nYour appointment has been confirmed for " ++
      strftimeSmsDate dt ++ ".\n\nDetails: " ++ summary ++
      "\n\nReply CONFIRM to acknowledge or call us if you need to reschedule.\n\n- Maxi Team"
  | none => smsFallback customer_name

/-! ### Email body templates (`format_email_body`, lines 333-461)

The literal segments below are the f-string text of the source, with the
interpolated fields left as parameters; the bodies are assembled by string
concatenation exactly as the f-strings and `+=` statements do. -/

def emailHr : String := "━━━━━━━━━━━━━━━━━━━━━━━━━━━━━━━━"

def emailPlainTail : String :=
  "If you need to reschedule or cancel, please contact us as soon as possible.\n\nWe look forward to speaking with you!\n\nBest regards,\nThe Maxi Team\n\n---\nThis is an automated confirmation. Please do not reply to this email.\n"

/-- Plain-text body: `n` customer name, `fd` formatted date, `ft` formatted
time, `p` phone, `s` summary, `linkPart` the optional calendar-link line. -/
def emailPlain (n fd ft p s linkPart : String) : String :=
  "Hello " ++ (n ++ (",\n\nThis email confirms your appointment with Maxi.\n\nAppointment Details:\n" ++ (emailHr ++ ("\nDate: " ++ (fd ++ ("\nTime: " ++ (ft ++ ("\nPhone: " ++ (p ++ ("\n\nSummary:\n" ++ (s ++ ("\n\n" ++ (emailHr ++ ("\n\n" ++ (linkPart ++ emailPlainTail)))))))))))))))

def emailHtmlHead : String := "<!DOCTYPE html>\n<html>\n<head>\n    <meta charset=\"utf-8\">\n    <meta name=\"viewport\" content=\"width=device-width, initial-scale=1.0\">\n    <style>\n        body \x7b font-family: \x27Segoe UI\x27, Tahoma, Geneva, Verdana, sans-serif; line-height: 1.6; color: #333; max-width: 600px; margin: 0 auto; padding: 20px; \x7d\n        .header \x7b background: linear-gradient(135deg, #667eea 0%, #764ba2 100%); color: white; padding: 30px; text-align: center; border-radius: 10px 10px 0 0; \x7d\n        .header h1 \x7b margin: 0; font-size: 28px; \x7d\n        .content \x7b background: #ffffff; padding: 30px; border: 1px solid #e0e0e0; border-top: none; \x7d\n        .details-box \x7b background: #f8f9fa; border-left: 4px solid #667eea; padding: 20px; margin: 20px 0; border-radius: 5px; \x7d\n        .detail-row \x7b margin: 10px 0; \x7d\n        .detail-label \x7b font-weight: bold; color: #667eea; display: inline-block; width: 80px; \x7d\n        .summary-box \x7b background: #fff9e6; border: 1px solid #ffd966; padding: 15px; margin: 20px 0; border-radius: 5px; \x7d\n        .button \x7b display: inline-block; background: #667eea; color: white; padding: 12px 30px; text-decoration: none; border-radius: 5px; margin: 20px 0; \x7d\n        .button:hover \x7b background: #5568d3; \x7d\n        .footer \x7b background: #f8f9fa; padding: 20px; text-align: center; color: #666; font-size: 12px; border-radius: 0 0 10px 10px; border: 1px solid #e0e0e0; border-top: none; \x7d\n    </style>\n</head>\n<body>\n    <div class=\"header\">\n        <h1>✓ Appointment Confirmed</h1>\n    </div>\n    <div class=\"content\">\n        <p>Hello <strong>"

def emailHtmlMid1 : String := "</strong>,</p>\n        <p>This email confirms your appointment with Maxi.</p>\n        \n        <div class=\"details-box\">\n            <h3 style=\"margin-top: 0; color: #667eea;\">📅 Appointment Details</h3>\n            <div class=\"detail-row\">\n                <span class=\"detail-label\">Date:</span> "

def emailHtmlMid2 : String := "\n            </div>\n            <div class=\"detail-row\">\n                <span class=\"detail-label\">Time:</span> "

def emailHtmlMid3 : String := "\n            </div>\n            <div class=\"detail-row\">\n                <span class=\"detail-label\">Phone:</span> "

def emailHtmlMid4 : String := "\n            </div>\n        </div>\n        \n        <div class=\"summary-box\">\n            <h4 style=\"margin-top: 0;\">📋 Summary</h4>\n            <p style=\"margin-bottom: 0;\">"

def emailHtmlMid5 : String := "</p>\n        </div>\n        "

/-- The first (f-string) part of the HTML body. -/
def emailHtmlF (n fd ft p s : String) : String :=
  emailHtmlHead ++ (n ++ (emailHtmlMid1 ++ (fd ++ (emailHtmlMid2 ++ (ft ++ (emailHtmlMid3 ++ (p ++ (emailHtmlMid4 ++ (s ++ emailHtmlMid5)))))))))

/-- The conditional calendar-link block appended to the HTML body. -/
def emailHtmlLinkPart (l : String) : String :=
  "\n        <div style=\"text-align: center;\">\n            <a href=\"" ++ (l ++ "\" class=\"button\">📅 View in Google Calendar</a>\n        </div>\n        ")

def emailHtmlTail : String := "\n        <p style=\"margin-top: 30px;\">If you need to reschedule or cancel, please contact us as soon as possible.</p>\n        <p>We look forward to speaking with you!</p>\n        <p style=\"margin-top: 20px;\"><strong>Best regards,</strong><br>The Maxi Team</p>\n    </div>\n    <div class=\"footer\">\n        This is an automated confirmation. Please do not reply to this email.\n    </div>\n</body>\n</html>"

/-- The `except` branch of `format_email_body` returns this simple fallback
for both the plain and the HTML body. -/
def emailFallbackBody (n : String) : String :=
  "Hello " ++ n ++ ",\n\nYour appointment has been confirmed.\n\nBest regards,\nMaxi Team"

/-- Model of `format_email_body` (lines 333-461): returns
`(plain_text, html)`.  Only the datetime parse can raise inside the `try`,
so the exception path is exactly the unparsable-`callback_time` case. -/
def format_email_body (customer_name callback_time summary phone : String)
    (calendar_link : Option String) : String × String :=
  match fromisoformat (pyReplaceZ callback_time) with
  | none => (emailFallbackBody customer_name, emailFallbackBody customer_name)
  | some dt =>
    let fd := strftimeEmailDate dt
    let ft := strftimeEmailTime dt
    let plainLink := if optTruthy calendar_link then
        "View in Google Calendar: " ++ ((calendar_link.getD "") ++ "\n\n") else ""
    let htmlLink := if optTruthy calendar_link then
        emailHtmlLinkPart (calendar_link.getD "") else ""
    (emailPlain customer_name fd ft phone summary plainLink,
     emailHtmlF customer_name fd ft phone summary ++ (htmlLink ++ emailHtmlTail))

/-- Description body of the calendar event (`"\n".join(description_parts)`,
lines 138-146). -/
def calendarDescription (customer_name phone : String) (email : Option String)
    (summary : String) (transcript : Option String) : String :=
  joinLines (["Customer: " ++ customer_name, "Phone: " ++ phone] ++
    (if optTruthy email then ["Email: " ++ email.getD ""] else []) ++
    ["\nSummary:\n" ++ summary] ++
    (if optTruthy transcript then ["\n\nTranscript:\n" ++ transcript.getD ""] else []))

/-- Model of `create_calendar_event` (lines 105-189): parse the callback
time, build the event draft, issue the insert; any exception (parse failure,
`HttpError`, anything else) is caught and yields `None`. -/
def create_calendar_event (cfg : Config) (w : World) (customer_name phone : String)
    (email : Option String) (callback_time summary : String)
    (transcript : Option String) : Option CalendarEvent × List Effect :=
  let calendar_id := cfg.google_calendar_id.getD "primary"
  match fromisoformat (pyReplaceZ callback_time) with
  | none => (none, [])
  | some start_time =>
    let end_time := addMinutes start_time 30
    let body : CalendarEventBody :=
      { summary := "Appointment: " ++ customer_name
        description := calendarDescription customer_name phone email summary transcript
        startDateTime := pyIsoformat start_time
        endDateTime := pyIsoformat end_time
        timeZone := "America/New_York"
        attendees := if optTruthy email then [email.getD ""] else [] }
    match w.calendarInsertResult with
    | .ok ev => (some ev, [Effect.calendarInsert calendar_id body])
    | .error _ => (none, [Effect.calendarInsert calendar_id body])

/-- Model of `send_sms` (lines 210-239): returns `False` with no call when
the client or sender number is missing; otherwise issues the create call and
reports its outcome, catching all exceptions. -/
def send_sms (cfg : Config) (w : World) (dest message : String) : Bool × List Effect :=
  if ¬ (twilioClientPresent cfg && cfg.twilio_number ≠ "") then (false, [])
  else
    match w.twilioCreateResult with
    | .ok _ => (true, [Effect.smsSend dest cfg.twilio_number message])
    | .error _ => (false, [Effect.smsSend dest cfg.twilio_number message])

/-- Model of `send_email` (lines 286-331). -/
def send_email (cfg : Config) (w : World) (dest subject body html_body : String) :
    Bool × List Effect :=
  if ¬ emailConfigured cfg then (false, [])
  else (w.smtpOk, [Effect.emailSend dest subject body html_body])

/-- The aggregate side-effect report (the `responses` dictionary). -/
structure Responses where
  calendar_created : Bool := false
  sms_sent : Bool := false
  email_sent : Bool := false
  calendar_event_id : Option String := none
  calendar_link : Option String := none
deriving DecidableEq, Repr

/-- The HTTP outcome of the webhook endpoint: either an `HTTPException`
(validation failure → 400, unexpected → 500) or a `JSONResponse` whose
content has a `status` discriminator, a human-readable message, the
aggregate `data`, and — on the success shape only — the customer echo and
the `appointment_time`. -/
inductive HandlerResult where
  | httpError (statusCode : Nat) (detail : String)
  | json (statusCode : Nat) (status : String) (message : String) (data : Responses)
      (customer : Option (String × String × Option String))
      (appointmentTime : Option String)
deriving DecidableEq, Repr

/-- The guarded calendar attempt of `handle_webhook` (lines 555-579): the
`try` block around `get_calendar_service` and `create_calendar_event`; a
service failure is caught and processing continues with no event. -/
def calendarStep (cfg : Config) (w : World) (customer_name phone : String)
    (email : Option String) (callback_time summary : String)
    (transcript : Option String) : Option CalendarEvent × List Effect :=
  match get_calendar_service cfg w with
  | .error _ => (none, [])
  | .ok _ => create_calendar_event cfg w customer_name phone email
      callback_time summary transcript

/-- The body of `handle_webhook` after successful validation (lines
525-637): extract fields with `or`-defaults, return the early acknowledged
response when no callback time is present, otherwise attempt the calendar
event, the SMS and the email, each failure non-fatal. -/
def processValidated (cfg : Config) (w : World) (payload : RawPayload) :
    HandlerResult × List Effect :=
  let customer_name := pyOr payload.customer_name "Valued Customer"
  let phone := payload.caller
  let email := payload.email
  let summary := pyOr payload.summary "Appointment scheduled via phone"
  if ¬ optTruthy payload.callback_time then
    (.json 200 "acknowledged" "Webhook received but no appointment time specified"
       {} none none, [])
  else
    let callback_time := payload.callback_time.getD ""
    let calRun := calendarStep cfg w customer_name phone email
      callback_time summary payload.transcript
    let event := calRun.1
    let calendar_link := event.bind (fun e => e.htmlLink)
    let smsRun :=
      if phone ≠ "" then
        send_sms cfg w phone (format_sms_message customer_name callback_time summary)
      else (false, [])
    let emailRun :=
      if optTruthy email then
        let bodies := format_email_body customer_name callback_time summary phone
          calendar_link
        send_email cfg w (email.getD "") ("Appointment Confirmation - " ++ customer_name)
          bodies.1 bodies.2
      else (false, [])
    let data : Responses :=
      { calendar_created := event.isSome
        sms_sent := smsRun.1
        email_sent := emailRun.1
        calendar_event_id := event.bind (fun e => e.id)
        calendar_link := calendar_link }
    (.json 200 "success" "Appointment processed successfully" data
       (some (customer_name, phone, email)) (some callback_time),
     calRun.2 ++ (smsRun.2 ++ emailRun.2))

/-- Model of `handle_webhook` (the `POST /webhook` endpoint, lines 497-649).
JSON body parsing by the framework is outside the model; the payload arrives
as the raw field record. -/
def handle_webhook (cfg : Config) (w : World) (emailOk : String → Bool)
    (raw : RawPayload) : HandlerResult × List Effect :=
  match webhookValidate emailOk raw with
  | .error msg => (.httpError 400 ("Invalid payload: " ++ msg), [])
  | .ok payload => processValidated cfg w payload

/-- A JSON value as returned by the informational endpoints. -/
inductive JsonVal where
  | str (s : String)
  | bool (b : Bool)
  | null
  | boolObj (fields : List (String × Bool))
deriving DecidableEq, Repr

/-- Model of `health_check` (`GET /health`, lines 480-495).  `now` stands
for the ambient `datetime.utcnow().isoformat()`. -/
def health_check (cfg : Config) (now : String) : List (String × JsonVal) :=
  let services : List (String × Bool) :=
    [("google_calendar", optTruthy cfg.google_b64),
     ("twilio_sms", twilioClientPresent cfg && cfg.twilio_number ≠ ""),
     ("email", emailConfigured cfg)]
  let all_healthy := services.all (fun f => f.2)
  [("status", .str (if all_healthy then "healthy" else "degraded")),
   ("timestamp", .str now),
   ("services", .boolObj services)]

/-! ## Model of `src/Main.py` (SolarFactsNW booking endpoint) -/

/-- Startup configuration of the booking variant.  All of these are
required (startup raises `RuntimeError` when any is missing), so they are
plain values; `TIMEZONE` has an environment default. -/
structure BookConfig where
  twilio_from_number : String
  google_calendar_id : String
  timezone : String := "America/Los_Angeles"
deriving DecidableEq, Repr

/-- The `BookingRequest` pydantic model (src/Main.py lines 45-53). -/
structure BookingRequest where
  name : String
  phone : String
  address : String
  preferred_date : String
  preferred_time : String
  email : Option String := none
  notes : Option String := none
deriving DecidableEq, Repr

/-- External outcomes for one booking request. -/
structure BookWorld where
  calendarInsertResult : Except String CalendarEvent := .ok {}
  twilioOk : Bool := true
deriving Repr

/-- Digits run of length `1..k` parsed as a number (`strptime` numeric
directives accept fewer digits than the field width). -/
def takeUpTo (k : Nat) (cs : List Char) : Option (Nat × List Char) :=
  let p := takeDigits cs
  if p.1.length = 0 || p.1.length > k then none
  else some (digitsToNat p.1, p.2)

/-- Model of `datetime.strptime(f"{date} {time}", "%Y-%m-%d %H:%M")` as used
by `book_appointment`: yields a naive datetime. -/
def strptimeBook (dateStr timeStr : String) : Option PyDateTime :=
  let cs := (dateStr ++ " " ++ timeStr).data
  match takeUpTo 4 cs with
  | none => none
  | some (y, r1) =>
    match expectCh '-' r1 with
    | none => none
    | some r2 =>
      match takeUpTo 2 r2 with
      | none => none
      | some (mo, r3) =>
        match expectCh '-' r3 with
        | none => none
        | some r4 =>
          match takeUpTo 2 r4 with
          | none => none
          | some (d, r5) =>
            match expectCh ' ' r5 with
            | none => none
            | some r6 =>
              match takeUpTo 2 r6 with
              | none => none
              | some (h, r7) =>
                match expectCh ':' r7 with
                | none => none
                | some r8 =>
                  match takeUpTo 2 r8 with
                  | none => none
                  | some (mi, r9) =>
                    if r9 = [] ∧ 1 ≤ y ∧ y ≤ 9999 ∧ 1 ≤ mo ∧ mo ≤ 12 ∧
                        1 ≤ d ∧ d ≤ daysInMonth y mo ∧ h < 24 ∧ mi < 60 then
                      some { year := y, month := mo, day := d, hour := h, minute := mi }
                    else none

/-- Description of the booking calendar event (lines 80-86). -/
def bookDescription (data : BookingRequest) : String :=
  "Name: " ++ data.name ++ "\nPhone: " ++ data.phone ++ "\nEmail: " ++
    pyOr data.email "N/A" ++ "\nNotes: " ++ pyOr data.notes "" ++
    "\nSource: Sunny Watts AI phone agent."

/-- SMS confirmation text in Sunny's voice (lines 107-112). -/
def bookSmsBody (name prettyTime address : String) : String :=
  "Hi " ++ (name ++ (", this is Sunny from SolarFactsNW. I’ve got you scheduled for your in-home solar visit on " ++ (prettyTime ++ (" at " ++ (address ++ ". If you need to reschedule, just reply to this number.")))))

/-- The HTTP outcome of the booking endpoint. -/
inductive BookResult where
  | ok (statusCode : Nat) (content : List (String × JsonVal))
  | httpError (statusCode : Nat) (detail : String)
deriving DecidableEq, Repr

/-- Model of `book_appointment` (`POST /sfnw/book`, src/Main.py lines
59-132): any exception anywhere in the body is converted to an
`HTTPException` with status 500, so the 200 response is produced only when
the parse, the calendar insert and the SMS send all succeed. -/
def book_appointment (cfg : BookConfig) (w : BookWorld) (data : BookingRequest) :
    BookResult × List Effect :=
  match strptimeBook data.preferred_date data.preferred_time with
  | none => (.httpError 500 "time data does not match format", [])
  | some start_dt =>
    let start_iso := pyIsoformat start_dt
    let body : CalendarEventBody :=
      { summary := "SolarFactsNW Home Visit – " ++ data.name
        description := bookDescription data
        location := some data.address
        startDateTime := start_iso
        endDateTime := pyIsoformat (addMinutes start_dt 60)
        timeZone := cfg.timezone }
    let calEff := Effect.calendarInsert cfg.google_calendar_id body
    match w.calendarInsertResult with
    | .error e => (.httpError 500 e, [calEff])
    | .ok created =>
      let pretty := pyLstrip '0' (strftimeSmsDate start_dt)
      let smsEff := Effect.smsSend data.phone cfg.twilio_from_number
        (bookSmsBody data.name pretty data.address)
      if w.twilioOk then
        (.ok 200 [("status", .str "ok"),
                  ("event_id", match created.id with | some i => .str i | none => .null),
                  ("scheduled_start", .str start_iso)],
         [calEff, smsEff])
      else (.httpError 500 "twilio send failed", [calEff, smsEff])

/-! ## Inversion lemmas about validation -/

/-- The phone validator returns its input unchanged on success (it never
substitutes the stripped digit string). -/
theorem validate_phone_ok_id (v r : String) (h : validate_phone v = .ok r) : r = v := by
  unfold validate_phone at h
  split at h
  · cases h
  · split at h
    · cases h
    · injection h with h; exact h.symm

theorem validate_phone_ok_ne (v r : String) (h : validate_phone v = .ok r) : v ≠ "" := by
  intro hv
  subst hv
  simp [validate_phone] at h

theorem validate_datetime_ok_id (v r : Option String)
    (h : validate_datetime v = .ok r) : r = v := by
  cases v with
  | none =>
    simp only [validate_datetime] at h
    injection h with h; exact h.symm
  | some s =>
    simp only [validate_datetime] at h
    split at h
    · injection h with h; exact h.symm
    · split at h
      · injection h with h; exact h.symm
      · cases h

theorem validate_email_ok_id (emailOk : String → Bool) (v r : Option String)
    (h : validate_email emailOk v = .ok r) : r = v := by
  cases v with
  | none =>
    simp only [validate_email] at h
    injection h with h; exact h.symm
  | some s =>
    simp only [validate_email] at h
    split at h
    · injection h with h; exact h.symm
    · cases h

/-- Successful validation returns the payload unchanged: every field
validator returns its input value. -/
theorem webhookValidate_ok_eq (emailOk : String → Bool) (p q : RawPayload)
    (h : webhookValidate emailOk p = .ok q) : q = p := by
  unfold webhookValidate at h
  split at h
  case h_1 c ct em h1 h2 h3 =>
    injection h with h
    subst h
    have hc := validate_phone_ok_id _ _ h1
    have hct := validate_datetime_ok_id _ _ h2
    have hem := validate_email_ok_id emailOk _ _ h3
    subst hc; subst hct; subst hem
    rfl
  case h_2 => cases h

theorem webhookValidate_ok_caller_ne (emailOk : String → Bool) (p q : RawPayload)
    (h : webhookValidate emailOk p = .ok q) : p.caller ≠ "" := by
  unfold webhookValidate at h
  split at h
  case h_1 c ct em h1 h2 h3 => exact validate_phone_ok_ne _ _ h1
  case h_2 => cases h

/-- A caller with fewer than ten digit characters always fails
`validate_phone`, with a message naming the phone-number constraint. -/
theorem validate_phone_short_digits (v : String)
    (h : (v.data.filter Char.isDigit).length < 10) :
    ∃ m, validate_phone v = .error m ∧ strContains m "Phone number must" = true := by
  unfold validate_phone
  by_cases h1 : (decide (v = "") || decide (v.length < 10)) = true
  · exact ⟨_, by rw [if_pos h1], by decide⟩
  · exact ⟨_, by rw [if_neg h1, if_pos h], by decide⟩

/-- Payload-level version: the aggregated pydantic error message mentions
the phone constraint (the caller is the first declared field, so its error
heads the message). -/
theorem webhookValidate_phone_short (emailOk : String → Bool) (p : RawPayload)
    (h : (p.caller.data.filter Char.isDigit).length < 10) :
    ∃ m, webhookValidate emailOk p = .error m ∧
      strContains m "Phone number must" = true := by
  obtain ⟨m, hm, hc⟩ := validate_phone_short_digits p.caller h
  cases h2 : validate_datetime p.callback_time with
  | ok ct =>
    cases h3 : validate_email emailOk p.email with
    | ok em =>
      exact ⟨joinLines [m], by simp [webhookValidate, hm, h2, h3, errsOf],
        strContains_joinLines_head m [] _ hc⟩
    | error e3 =>
      exact ⟨joinLines [m, e3], by simp [webhookValidate, hm, h2, h3, errsOf],
        strContains_joinLines_head m [e3] _ hc⟩
  | error e2 =>
    cases h3 : validate_email emailOk p.email with
    | ok em =>
      exact ⟨joinLines [m, e2], by simp [webhookValidate, hm, h2, h3, errsOf],
        strContains_joinLines_head m [e2] _ hc⟩
    | error e3 =>
      exact ⟨joinLines [m, e2, e3], by simp [webhookValidate, hm, h2, h3, errsOf],
        strContains_joinLines_head m [e2, e3] _ hc⟩

/-! ## Lemmas about the side-effect steps -/

theorem send_sms_disabled (cfg : Config) (w : World)
    (h : cfg.twilio_sid = "" ∨ cfg.twilio_auth = "" ∨ cfg.twilio_number = "")
    (dest msg : String) :
    send_sms cfg w dest msg = (false, []) := by
  unfold send_sms twilioClientPresent
  rcases h with h | h | h <;> simp [h]

theorem send_sms_success (cfg : Config) (w : World) (dest msg : String)
    (htw : (twilioClientPresent cfg && cfg.twilio_number ≠ "") = true)
    (hok : ∃ sid, w.twilioCreateResult = .ok sid) :
    send_sms cfg w dest msg = (true, [Effect.smsSend dest cfg.twilio_number msg]) := by
  obtain ⟨sid, hs⟩ := hok
  unfold send_sms
  rw [if_neg (by simp only [not_not]; exact htw), hs]

theorem send_sms_effect_dest (cfg : Config) (w : World) (dest msg d f b : String)
    (h : Effect.smsSend d f b ∈ (send_sms cfg w dest msg).2) : d = dest := by
  unfold send_sms at h
  split at h
  · simp at h
  · split at h <;> simp at h <;> exact h.1

theorem create_calendar_event_no_sms (cfg : Config) (w : World)
    (n p : String) (em : Option String) (ct s : String) (tr : Option String)
    (d f b : String) :
    Effect.smsSend d f b ∉ (create_calendar_event cfg w n p em ct s tr).2 := by
  simp only [create_calendar_event]
  split
  · simp
  · split <;> simp

theorem calendarStep_no_sms (cfg : Config) (w : World)
    (n p : String) (em : Option String) (ct s : String) (tr : Option String)
    (d f b : String) :
    Effect.smsSend d f b ∉ (calendarStep cfg w n p em ct s tr).2 := by
  unfold calendarStep
  split
  · simp
  · exact create_calendar_event_no_sms cfg w n p em ct s tr d f b

theorem send_email_no_sms (cfg : Config) (w : World)
    (dest subj bo hb d f b : String) :
    Effect.smsSend d f b ∉ (send_email cfg w dest subj bo hb).2 := by
  unfold send_email
  split <;> simp

/-- When the calendar service cannot be built or the insert call fails, the
guarded calendar attempt yields no event. -/
theorem calendarStep_fails (cfg : Config) (w : World)
    (n p : String) (em : Option String) (ct s : String) (tr : Option String)
    (hcal : (∃ e, get_calendar_service cfg w = .error e) ∨
            (∃ e, w.calendarInsertResult = .error e)) :
    (calendarStep cfg w n p em ct s tr).1 = none := by
  unfold calendarStep
  rcases hcal with ⟨e, he⟩ | ⟨e, he⟩
  · rw [he]
  · split
    · rfl
    · simp only [create_calendar_event]
      split
      · rfl
      · rw [he]

/-! ## Claim theorems -/

/-- C2: for every caller identifier with fewer than ten digit characters
after stripping non-digits, validation of the /webhook payload fails and
the response is a 400 `HTTPException` whose detail mentions the
phone-number constraint; no side effect is attempted. -/
theorem webhook_short_phone_rejected (cfg : Config) (w : World)
    (emailOk : String → Bool) (raw : RawPayload)
    (h : (raw.caller.data.filter Char.isDigit).length < 10) :
    ∃ d, handle_webhook cfg w emailOk raw = (.httpError 400 d, []) ∧
      strContains d "Phone number must" = true ∧
      strContains d "Invalid payload" = true := by
  obtain ⟨m, hm, hc⟩ := webhookValidate_phone_short emailOk raw h
  refine ⟨"Invalid payload: " ++ m, ?_, ?_, ?_⟩
  · simp [handle_webhook, hm]
  · exact strContains_append_right _ _ _ hc
  · exact strContains_append_left _ _ _ (by decide)

/-- Witness for C2 at the spec's concrete example payload
`{"caller": "123"}`. -/
theorem webhook_short_phone_rejected_witness :
    ((("123" : String).data.filter Char.isDigit).length < 10) ∧
    ∃ d, handle_webhook {} {} (fun _ => true) { caller := "123" } =
        (.httpError 400 d, []) ∧
      strContains d "Phone number must" = true ∧
      strContains d "Invalid payload" = true :=
  ⟨by decide,
   webhook_short_phone_rejected {} {} (fun _ => true) { caller := "123" } (by decide)⟩

/-- C3: a payload that passes validation and carries no callback timestamp
is acknowledged with HTTP 200, a status distinct from "success", all
side-effect flags false, and not a single external call. -/
theorem webhook_no_callback_time_acknowledged (cfg : Config) (w : World)
    (emailOk : String → Bool) (raw p : RawPayload)
    (hv : webhookValidate emailOk raw = .ok p)
    (hct : raw.callback_time = none) :
    handle_webhook cfg w emailOk raw =
      (.json 200 "acknowledged" "Webhook received but no appointment time specified"
         { calendar_created := false, sms_sent := false, email_sent := false,
           calendar_event_id := none, calendar_link := none } none none, []) := by
  have hp := webhookValidate_ok_eq emailOk raw p hv
  rw [hp] at hv
  simp [handle_webhook, hv, processValidated, hct, optTruthy]

/-- Witness for C3: a minimal valid payload with no `callback_time`. -/
theorem webhook_no_callback_time_acknowledged_witness :
    webhookValidate (fun _ => true) { caller := "+12025551234" } =
      .ok { caller := "+12025551234" } ∧
    handle_webhook {} {} (fun _ => true) { caller := "+12025551234" } =
      (.json 200 "acknowledged" "Webhook received but no appointment time specified"
         { calendar_created := false, sms_sent := false, email_sent := false,
           calendar_event_id := none, calendar_link := none } none none, []) :=
  ⟨by decide,
   webhook_no_callback_time_acknowledged {} {} (fun _ => true)
     { caller := "+12025551234" } { caller := "+12025551234" } (by decide) rfl⟩

theorem pyReplaceZ_trailing (t : String) (hz : 'Z' ∉ t.data) :
    pyReplaceZ (t ++ "Z") = t ++ "+00:00" := by
  unfold pyReplaceZ
  rw [string_data_append, replaceZch_append, replaceZch_of_not_mem t.data hz]
  have hzz : replaceZch (("Z" : String).data) = ("+00:00" : String).data := by decide
  rw [hzz]
  cases t
  rfl

theorem pyReplaceZ_of_no_z (t : String) (hz : 'Z' ∉ t.data) : pyReplaceZ t = t := by
  unfold pyReplaceZ
  rw [replaceZch_of_not_mem t.data hz]

/-- C4: for a timestamp that is valid with an explicit `+00:00` offset, the
variant with a trailing literal `Z` also passes `callback_time` validation,
and both variants parse to the same instant (the code maps `Z` to `+00:00`
before parsing, so the parsed values are literally equal). -/
theorem callback_time_z_equivalent (t : String) (hz : 'Z' ∉ t.data)
    (hv : (fromisoformat (t ++ "+00:00")).isSome = true) :
    validate_datetime (some (t ++ "Z")) = .ok (some (t ++ "Z")) ∧
    validate_datetime (some (t ++ "+00:00")) = .ok (some (t ++ "+00:00")) ∧
    fromisoformat (pyReplaceZ (t ++ "Z")) =
      fromisoformat (pyReplaceZ (t ++ "+00:00")) := by
  have hz00 : 'Z' ∉ (t ++ "+00:00").data := by
    rw [string_data_append]
    simp only [List.mem_append]
    rintro (h | h)
    · exact hz h
    · revert h; decide
  have hrepZ : pyReplaceZ (t ++ "Z") = t ++ "+00:00" := pyReplaceZ_trailing t hz
  have hrep0 : pyReplaceZ (t ++ "+00:00") = t ++ "+00:00" := pyReplaceZ_of_no_z _ hz00
  obtain ⟨dt, hdt⟩ := Option.isSome_iff_exists.mp hv
  have hneZ : ¬ (t ++ "Z") = "" := by
    intro hh
    have h1 : (t ++ "Z").data = ("" : String).data := congrArg String.data hh
    rw [string_data_append] at h1
    have h2 : ("Z" : String).data = ['Z'] := rfl
    have h3 : ("" : String).data = [] := rfl
    rw [h2, h3] at h1
    exact absurd h1 (by simp)
  have hne0 : ¬ (t ++ "+00:00") = "" := by
    intro hh
    have h1 : (t ++ "+00:00").data = ("" : String).data := congrArg String.data hh
    rw [string_data_append] at h1
    have h2 : ("+00:00" : String).data = ['+', '0', '0', ':', '0', '0'] := rfl
    have h3 : ("" : String).data = [] := rfl
    rw [h2, h3] at h1
    exact absurd h1 (by simp)
  refine ⟨?_, ?_, ?_⟩
  · simp only [validate_datetime]
    rw [if_neg hneZ, hrepZ, hdt]
  · simp only [validate_datetime]
    rw [if_neg hne0, hrep0, hdt]
  · rw [hrepZ, hrep0]

/-- Witness for C4 at a concrete timestamp. -/
theorem callback_time_z_equivalent_witness :
    ('Z' ∉ ("2025-06-02T15:00:00" : String).data) ∧
    (fromisoformat ("2025-06-02T15:00:00" ++ "+00:00")).isSome = true ∧
    (validate_datetime (some ("2025-06-02T15:00:00" ++ "Z")) =
        .ok (some ("2025-06-02T15:00:00" ++ "Z")) ∧
     validate_datetime (some ("2025-06-02T15:00:00" ++ "+00:00")) =
        .ok (some ("2025-06-02T15:00:00" ++ "+00:00")) ∧
     fromisoformat (pyReplaceZ ("2025-06-02T15:00:00" ++ "Z")) =
        fromisoformat (pyReplaceZ ("2025-06-02T15:00:00" ++ "+00:00"))) :=
  ⟨by decide, by decide,
   callback_time_z_equivalent "2025-06-02T15:00:00" (by decide) (by decide)⟩

/-- C5: with the Twilio account SID, auth token or sender number absent at
startup, the SMS path is disabled: `send_sms` returns false with no call for
every input, the outcome is a function of the startup configuration alone
(identical across worlds and requests), and a webhook request that carries a
callback time still completes with a 200 "success" response whose
`sms_sent` is false. -/
theorem sms_disabled_without_credentials (cfg : Config) (w : World)
    (h : cfg.twilio_sid = "" ∨ cfg.twilio_auth = "" ∨ cfg.twilio_number = "") :
    (∀ dest msg, send_sms cfg w dest msg = (false, [])) ∧
    (∀ (w' : World) dest msg dest' msg',
      (send_sms cfg w dest msg).1 = (send_sms cfg w' dest' msg').1) ∧
    (∀ (emailOk : String → Bool) (raw p : RawPayload),
      webhookValidate emailOk raw = .ok p →
      optTruthy raw.callback_time = true →
      ∃ data cust effs,
        handle_webhook cfg w emailOk raw =
          (.json 200 "success" "Appointment processed successfully" data cust
             (some (raw.callback_time.getD "")), effs) ∧
        data.sms_sent = false) := by
  refine ⟨send_sms_disabled cfg w h, ?_, ?_⟩
  · intro w' dest msg dest' msg'
    rw [send_sms_disabled cfg w h dest msg, send_sms_disabled cfg w' h dest' msg']
  · intro emailOk raw p hv hct
    have hp := webhookValidate_ok_eq emailOk raw p hv
    rw [hp] at hv
    simp only [handle_webhook, hv]
    simp only [processValidated]
    rw [if_neg (by simp [hct])]
    refine ⟨_, _, _, rfl, ?_⟩
    by_cases hph : raw.caller = ""
    · simp [hph]
    · simp [hph, send_sms_disabled cfg w h]

/-- Witness for C5: missing account SID, webhook with a callback time. -/
theorem sms_disabled_without_credentials_witness :
    send_sms { twilio_auth := "tok", twilio_number := "+15550001111" } {}
      "+12025551234" "msg" = (false, []) ∧
    ∃ data cust effs,
      handle_webhook { twilio_auth := "tok", twilio_number := "+15550001111" } {}
          (fun _ => true)
          { caller := "+12025551234", callback_time := some "2025-06-02T15:00:00Z" } =
        (.json 200 "success" "Appointment processed successfully" data cust
           (some ((some "2025-06-02T15:00:00Z" : Option String).getD "")), effs) ∧
      data.sms_sent = false := by
  have h := sms_disabled_without_credentials
    { twilio_auth := "tok", twilio_number := "+15550001111" } {} (Or.inl rfl)
  exact ⟨h.1 _ _, h.2.2 (fun _ => true)
    { caller := "+12025551234", callback_time := some "2025-06-02T15:00:00Z" }
    { caller := "+12025551234", callback_time := some "2025-06-02T15:00:00Z" }
    (by decide) (by decide)⟩

/-- C7: the SMS time rendering is a pure function of the parsed instant:
two callback-time strings that parse to the same instant render to the
identical weekday + month + day + 12-hour-time message, with no dependence
on any ambient state. -/
theorem sms_time_rendering_deterministic (n s t1 t2 : String) (dt : PyDateTime)
    (h1 : fromisoformat (pyReplaceZ t1) = some dt)
    (h2 : fromisoformat (pyReplaceZ t2) = some dt) :
    format_sms_message n t1 s = format_sms_message n t2 s := by
  unfold format_sms_message
  rw [h1, h2]

/-- Witness for C7: the `Z` and `+00:00` spellings of one instant render
identically. -/
theorem sms_time_rendering_deterministic_witness :
    fromisoformat (pyReplaceZ "2025-03-04T15:00:00Z") =
      some { year := 2025, month := 3, day := 4, hour := 15,
             tzoffsetMinutes := some 0 } ∧
    format_sms_message "Jane" "2025-03-04T15:00:00Z" "Consultation" =
      format_sms_message "Jane" "2025-03-04T15:00:00+00:00" "Consultation" :=
  ⟨by decide,
   sms_time_rendering_deterministic "Jane" "Consultation" _ _
     { year := 2025, month := 3, day := 4, hour := 15, tzoffsetMinutes := some 0 }
     (by decide) (by decide)⟩

/-- C8 counterexample: the health response at a concrete configuration has
no `message` field, has a `timestamp` field, and its field list is not
`[status, message]`. -/
theorem health_fields_counterexample :
    ("message" ∉ (health_check {} "2025-01-01T00:00:00").map Prod.fst) ∧
    ("timestamp" ∈ (health_check {} "2025-01-01T00:00:00").map Prod.fst) ∧
    (health_check {} "2025-01-01T00:00:00").map Prod.fst ≠ ["status", "message"] := by
  refine ⟨?_, ?_, ?_⟩ <;> decide

/-- C8 amended: GET /health returns a JSON object with exactly the fields
`status`, `timestamp` and `services`, in that order, for every
configuration and clock reading. -/
theorem health_fields (cfg : Config) (now : String) :
    (health_check cfg now).map Prod.fst = ["status", "timestamp", "services"] := rfl

/-- C1: when the calendar attempt fails (service-credential failure or an
insert error from the provider) while Twilio is configured and its create
call succeeds, the handler still attempts the SMS, and returns HTTP 200
with status "success", `calendar_created = false` and `sms_sent = true`. -/
theorem webhook_calendar_fail_sms_ok (cfg : Config) (w : World)
    (emailOk : String → Bool) (raw p : RawPayload)
    (hv : webhookValidate emailOk raw = .ok p)
    (hct : optTruthy raw.callback_time = true)
    (hcal : (∃ e, get_calendar_service cfg w = .error e) ∨
            (∃ e, w.calendarInsertResult = .error e))
    (htw : (twilioClientPresent cfg && cfg.twilio_number ≠ "") = true)
    (hsms : ∃ sid, w.twilioCreateResult = .ok sid) :
    ∃ data cust effs,
      handle_webhook cfg w emailOk raw =
        (.json 200 "success" "Appointment processed successfully" data cust
           (some (raw.callback_time.getD "")), effs) ∧
      data.calendar_created = false ∧
      data.sms_sent = true ∧
      (∃ b, Effect.smsSend raw.caller cfg.twilio_number b ∈ effs) := by
  have hp := webhookValidate_ok_eq emailOk raw p hv
  rw [hp] at hv
  have hne := webhookValidate_ok_caller_ne emailOk raw raw hv
  have hs := send_sms_success cfg w raw.caller
    (format_sms_message (pyOr raw.customer_name "Valued Customer")
      (raw.callback_time.getD "") (pyOr raw.summary "Appointment scheduled via phone"))
    htw hsms
  have hcf := calendarStep_fails cfg w (pyOr raw.customer_name "Valued Customer")
    raw.caller raw.email (raw.callback_time.getD "")
    (pyOr raw.summary "Appointment scheduled via phone") raw.transcript hcal
  simp only [handle_webhook, hv]
  simp only [processValidated]
  rw [if_neg (by simp [hct])]
  refine ⟨_, _, _, rfl, ?_, ?_, ?_⟩
  · simp [hcf]
  · simp [hne, hs]
  · exact ⟨format_sms_message (pyOr raw.customer_name "Valued Customer")
      (raw.callback_time.getD "") (pyOr raw.summary "Appointment scheduled via phone"),
      by simp [hne, hs]⟩

/-- Witness for C1: Google credentials absent (calendar path fails), Twilio
configured and succeeding. -/
theorem webhook_calendar_fail_sms_ok_witness :
    ∃ data cust effs,
      handle_webhook
          { twilio_sid := "AC1", twilio_auth := "tok", twilio_number := "+15550001111" }
          {} (fun _ => true)
          { caller := "+12025551234", callback_time := some "2025-06-02T15:00:00Z" } =
        (.json 200 "success" "Appointment processed successfully" data cust
           (some ((some "2025-06-02T15:00:00Z" : Option String).getD "")), effs) ∧
      data.calendar_created = false ∧
      data.sms_sent = true ∧
      (∃ b, Effect.smsSend "+12025551234" "+15550001111" b ∈ effs) :=
  webhook_calendar_fail_sms_ok
    { twilio_sid := "AC1", twilio_auth := "tok", twilio_number := "+15550001111" }
    {} (fun _ => true)
    { caller := "+12025551234", callback_time := some "2025-06-02T15:00:00Z" }
    { caller := "+12025551234", callback_time := some "2025-06-02T15:00:00Z" }
    (by decide) (by decide)
    (Or.inl ⟨"Google Calendar credentials not configured", by decide⟩)
    (by decide) ⟨"SM0", rfl⟩

/-- Every SMS effect of the post-validation processing targets the
payload's `caller` field. -/
theorem processValidated_sms_dest (cfg : Config) (w : World) (payload : RawPayload)
    (d f b : String)
    (h : Effect.smsSend d f b ∈ (processValidated cfg w payload).2) :
    d = payload.caller := by
  simp only [processValidated] at h
  split at h
  · simp at h
  · simp only [List.mem_append] at h
    rcases h with h | h | h
    · exact absurd h (calendarStep_no_sms cfg w _ _ _ _ _ _ d f b)
    · split at h
      · exact send_sms_effect_dest cfg w _ _ d f b h
      · simp at h
    · split at h
      · exact absurd h (send_email_no_sms cfg w _ _ _ _ d f b)
      · simp at h

/-- C10: validation leaves the caller unchanged (the phone validator
returns its input, never the stripped digits), and every SMS the webhook
handler sends is addressed to exactly that raw caller string. -/
theorem caller_passed_through_raw :
    (∀ v r, validate_phone v = .ok r → r = v) ∧
    (∀ (cfg : Config) (w : World) (emailOk : String → Bool) (raw : RawPayload)
       (d f b : String),
      Effect.smsSend d f b ∈ (handle_webhook cfg w emailOk raw).2 →
        d = raw.caller) := by
  refine ⟨validate_phone_ok_id, ?_⟩
  intro cfg w emailOk raw d f b h
  unfold handle_webhook at h
  cases hv : webhookValidate emailOk raw with
  | error m => rw [hv] at h; simp at h
  | ok p =>
    rw [hv] at h
    simp only [] at h
    have hd := processValidated_sms_dest cfg w p d f b h
    rw [webhookValidate_ok_eq emailOk raw p hv] at hd
    exact hd

/-- Witness for C10: a caller string with formatting characters is passed
verbatim as the SMS destination. -/
theorem caller_passed_through_raw_witness :
    validate_phone "+1 (202) 555-0100" = .ok "+1 (202) 555-0100" ∧
    (Effect.smsSend "+1 (202) 555-0100" "+15550001111"
        (format_sms_message "Valued Customer" "2025-06-02T15:00:00Z"
          "Appointment scheduled via phone") ∈
      (handle_webhook
        { twilio_sid := "AC1", twilio_auth := "tok", twilio_number := "+15550001111" }
        {} (fun _ => true)
        { caller := "+1 (202) 555-0100",
          callback_time := some "2025-06-02T15:00:00Z" }).2) ∧
    "+1 (202) 555-0100" =
      ({ caller := "+1 (202) 555-0100",
         callback_time := some "2025-06-02T15:00:00Z" } : RawPayload).caller := by
  refine ⟨by decide, by decide, ?_⟩
  exact caller_passed_through_raw.2
    { twilio_sid := "AC1", twilio_auth := "tok", twilio_number := "+15550001111" }
    {} (fun _ => true)
    { caller := "+1 (202) 555-0100", callback_time := some "2025-06-02T15:00:00Z" }
    "+1 (202) 555-0100" "+15550001111"
    (format_sms_message "Valued Customer" "2025-06-02T15:00:00Z"
      "Appointment scheduled via phone") (by decide)

/-! ## Containment facts about the email bodies -/

theorem strContains_empty (h : String) : strContains h "" = true :=
  containsSub_nil h.data

theorem emailPlain_contains_name (n fd ft p s lp : String) :
    strContains (emailPlain n fd ft p s lp) n = true := by
  unfold emailPlain
  repeat first
    | exact strContains_middle _ _ _
    | apply strContains_append_right

theorem emailPlain_contains_date (n fd ft p s lp : String) :
    strContains (emailPlain n fd ft p s lp) fd = true := by
  unfold emailPlain
  repeat first
    | exact strContains_middle _ _ _
    | apply strContains_append_right

theorem emailPlain_contains_time (n fd ft p s lp : String) :
    strContains (emailPlain n fd ft p s lp) ft = true := by
  unfold emailPlain
  repeat first
    | exact strContains_middle _ _ _
    | apply strContains_append_right

theorem emailPlain_contains_phone (n fd ft p s lp : String) :
    strContains (emailPlain n fd ft p s lp) p = true := by
  unfold emailPlain
  repeat first
    | exact strContains_middle _ _ _
    | apply strContains_append_right

theorem emailPlain_contains_summary (n fd ft p s lp : String) :
    strContains (emailPlain n fd ft p s lp) s = true := by
  unfold emailPlain
  repeat first
    | exact strContains_middle _ _ _
    | apply strContains_append_right

theorem emailPlain_contains_link (n fd ft p s l : String) :
    strContains
      (emailPlain n fd ft p s ("View in Google Calendar: " ++ (l ++ "\n\n"))) l =
      true := by
  unfold emailPlain
  repeat first
    | exact strContains_middle _ _ _
    | exact strContains_append_left _ _ _ (strContains_middle _ _ _)
    | apply strContains_append_right

theorem emailHtmlF_contains_name (n fd ft p s : String) :
    strContains (emailHtmlF n fd ft p s) n = true := by
  unfold emailHtmlF
  repeat first
    | exact strContains_middle _ _ _
    | apply strContains_append_right

theorem emailHtmlF_contains_date (n fd ft p s : String) :
    strContains (emailHtmlF n fd ft p s) fd = true := by
  unfold emailHtmlF
  repeat first
    | exact strContains_middle _ _ _
    | apply strContains_append_right

theorem emailHtmlF_contains_time (n fd ft p s : String) :
    strContains (emailHtmlF n fd ft p s) ft = true := by
  unfold emailHtmlF
  repeat first
    | exact strContains_middle _ _ _
    | apply strContains_append_right

theorem emailHtmlF_contains_phone (n fd ft p s : String) :
    strContains (emailHtmlF n fd ft p s) p = true := by
  unfold emailHtmlF
  repeat first
    | exact strContains_middle _ _ _
    | apply strContains_append_right

theorem emailHtmlF_contains_summary (n fd ft p s : String) :
    strContains (emailHtmlF n fd ft p s) s = true := by
  unfold emailHtmlF
  repeat first
    | exact strContains_middle _ _ _
    | apply strContains_append_right

theorem emailHtml_contains_link (n fd ft p s l : String) :
    strContains
      (emailHtmlF n fd ft p s ++ (emailHtmlLinkPart l ++ emailHtmlTail)) l = true := by
  apply strContains_append_right
  apply strContains_append_left
  unfold emailHtmlLinkPart
  exact strContains_middle _ _ _

/-- C6 counterexample: when the callback time does not parse, the exception
fallback of `format_email_body` returns bodies that omit a provided calendar
link, so "the calendar link appears in both bodies exactly when provided"
fails at this concrete input. -/
theorem format_email_link_counterexample :
    strContains (format_email_body "Jane" "bogus" "s" "p"
        (some "https://cal.example/xyz")).1 "https://cal.example/xyz" = false ∧
    strContains (format_email_body "Jane" "bogus" "s" "p"
        (some "https://cal.example/xyz")).2 "https://cal.example/xyz" = false := by
  constructor <;> decide

/-- C6 amended: the plain-text and HTML bodies are content-equivalent for
every input — each of the name, summary and phone facts appears in one body
iff it appears in the other; when the callback time parses, the formatted
date and time appear in both bodies and a provided calendar link value
appears in both bodies; when the callback time does not parse, both bodies
are the identical fallback text (which omits the link even if provided). -/
theorem format_email_body_content_equivalent (n t s p : String)
    (link : Option String) :
    ((strContains (format_email_body n t s p link).1 n = true ↔
        strContains (format_email_body n t s p link).2 n = true) ∧
     (strContains (format_email_body n t s p link).1 s = true ↔
        strContains (format_email_body n t s p link).2 s = true) ∧
     (strContains (format_email_body n t s p link).1 p = true ↔
        strContains (format_email_body n t s p link).2 p = true)) ∧
    (∀ dt, fromisoformat (pyReplaceZ t) = some dt →
      strContains (format_email_body n t s p link).1 (strftimeEmailDate dt) = true ∧
      strContains (format_email_body n t s p link).2 (strftimeEmailDate dt) = true ∧
      strContains (format_email_body n t s p link).1 (strftimeEmailTime dt) = true ∧
      strContains (format_email_body n t s p link).2 (strftimeEmailTime dt) = true ∧
      ∀ l, link = some l →
        strContains (format_email_body n t s p link).1 l = true ∧
        strContains (format_email_body n t s p link).2 l = true) ∧
    (fromisoformat (pyReplaceZ t) = none →
      (format_email_body n t s p link).1 = (format_email_body n t s p link).2) := by
  cases hparse : fromisoformat (pyReplaceZ t) with
  | none =>
    refine ⟨⟨?_, ?_, ?_⟩, ?_, ?_⟩
    · simp [format_email_body, hparse]
    · simp [format_email_body, hparse]
    · simp [format_email_body, hparse]
    · intro dt hdt; simp at hdt
    · intro _; simp [format_email_body, hparse]
  | some dt =>
    have hfe : format_email_body n t s p link =
        (emailPlain n (strftimeEmailDate dt) (strftimeEmailTime dt) p s
           (if optTruthy link then
              "View in Google Calendar: " ++ ((link.getD "") ++ "\n\n") else ""),
         emailHtmlF n (strftimeEmailDate dt) (strftimeEmailTime dt) p s ++
           ((if optTruthy link then emailHtmlLinkPart (link.getD "") else "") ++
             emailHtmlTail)) := by
      simp only [format_email_body, hparse]
    rw [hfe]
    refine ⟨⟨?_, ?_, ?_⟩, ?_, ?_⟩
    · simp [emailPlain_contains_name,
        strContains_append_left _ _ _ (emailHtmlF_contains_name n _ _ p s)]
    · simp [emailPlain_contains_summary,
        strContains_append_left _ _ _ (emailHtmlF_contains_summary n _ _ p s)]
    · simp [emailPlain_contains_phone,
        strContains_append_left _ _ _ (emailHtmlF_contains_phone n _ _ p s)]
    · intro dt' hdt'
      injection hdt' with hdt'
      subst hdt'
      refine ⟨emailPlain_contains_date _ _ _ _ _ _,
        strContains_append_left _ _ _ (emailHtmlF_contains_date n _ _ p s),
        emailPlain_contains_time _ _ _ _ _ _,
        strContains_append_left _ _ _ (emailHtmlF_contains_time n _ _ p s), ?_⟩
      intro l hl
      subst hl
      by_cases hle : l = ""
      · subst hle
        exact ⟨strContains_empty _, strContains_empty _⟩
      · have htr : optTruthy (some l) = true := by simp [optTruthy, hle]
        rw [htr]
        simp only [if_true, Option.getD_some]
        exact ⟨emailPlain_contains_link n _ _ p s l, emailHtml_contains_link n _ _ p s l⟩
    · intro hnone
      simp at hnone

/-- Witness for C6: every fact and the provided link appear in both bodies
at a concrete parsable input. -/
theorem format_email_body_content_equivalent_witness :
    fromisoformat (pyReplaceZ "2025-06-02T15:00:00Z") =
      some { year := 2025, month := 6, day := 2, hour := 15,
             tzoffsetMinutes := some 0 } ∧
    (strContains (format_email_body "Jane" "2025-06-02T15:00:00Z" "Consult"
        "+12025551234" (some "https://cal.example/ev1")).1
        "https://cal.example/ev1" = true ∧
     strContains (format_email_body "Jane" "2025-06-02T15:00:00Z" "Consult"
        "+12025551234" (some "https://cal.example/ev1")).2
        "https://cal.example/ev1" = true) ∧
    (strContains (format_email_body "Jane" "2025-06-02T15:00:00Z" "Consult"
        "+12025551234" (some "https://cal.example/ev1")).1 "Jane" = true ↔
     strContains (format_email_body "Jane" "2025-06-02T15:00:00Z" "Consult"
        "+12025551234" (some "https://cal.example/ev1")).2 "Jane" = true) := by
  have h := format_email_body_content_equivalent "Jane" "2025-06-02T15:00:00Z"
    "Consult" "+12025551234" (some "https://cal.example/ev1")
  refine ⟨by decide, ?_, h.1.1⟩
  exact (h.2.1
      { year := 2025, month := 6, day := 2, hour := 15, tzoffsetMinutes := some 0 }
      (by decide)).2.2.2.2 "https://cal.example/ev1" rfl

/-! ## Booking-response claims -/

/-- Field names of a booking response (empty for the error shape). -/
def bookResponseKeys (r : BookResult) : List String :=
  match r with
  | .ok _ content => content.map Prod.fst
  | .httpError _ _ => []

/-- A concrete successful booking run used to exhibit the response shape. -/
def bookCfgEx : BookConfig :=
  { twilio_from_number := "+15550002222", google_calendar_id := "cal2" }

def bookWorldEx : BookWorld := { calendarInsertResult := .ok { id := some "bev1" } }

def bookReqEx : BookingRequest :=
  { name := "Bob", phone := "+12025559999", address := "1 Main St",
    preferred_date := "2025-06-02", preferred_time := "15:00" }

/-- C9 counterexample: a successful booking response has the field list
`[status, event_id, scheduled_start]` — it carries an extra
`scheduled_start` field and names the identifier `event_id`, not `eventId`,
so its shape is not `{status, eventId}`. -/
theorem book_response_shape_counterexample :
    bookResponseKeys (book_appointment bookCfgEx bookWorldEx bookReqEx).1 =
      ["status", "event_id", "scheduled_start"] ∧
    bookResponseKeys (book_appointment bookCfgEx bookWorldEx bookReqEx).1 ≠
      ["status", "eventId"] ∧
    "eventId" ∉ bookResponseKeys (book_appointment bookCfgEx bookWorldEx bookReqEx).1 ∧
    "scheduled_start" ∈
      bookResponseKeys (book_appointment bookCfgEx bookWorldEx bookReqEx).1 := by
  refine ⟨?_, ?_, ?_, ?_⟩ <;> decide

/-- C9 amended: a successful booking (time parse, calendar insert and SMS
send all succeed) returns 200 with exactly the fields `status`, `event_id`
and `scheduled_start`, where `event_id` is the identifier the calendar
provider returned for the created event. -/
theorem book_success_response (cfg : BookConfig) (w : BookWorld)
    (data : BookingRequest) (dt : PyDateTime) (ev : CalendarEvent) (evid : String)
    (hp : strptimeBook data.preferred_date data.preferred_time = some dt)
    (hc : w.calendarInsertResult = .ok ev) (hid : ev.id = some evid)
    (ht : w.twilioOk = true) :
    (book_appointment cfg w data).1 =
      .ok 200 [("status", .str "ok"), ("event_id", .str evid),
               ("scheduled_start", .str (pyIsoformat dt))] := by
  simp only [book_appointment, hp, hc, hid, ht]
  simp [hid]

/-- Witness for C9 at the concrete successful booking. -/
theorem book_success_response_witness :
    strptimeBook "2025-06-02" "15:00" =
      some { year := 2025, month := 6, day := 2, hour := 15 } ∧
    (book_appointment bookCfgEx bookWorldEx bookReqEx).1 =
      .ok 200 [("status", .str "ok"), ("event_id", .str "bev1"),
               ("scheduled_start", .str (pyIsoformat
                 { year := 2025, month := 6, day := 2, hour := 15 }))] :=
  ⟨by decide,
   book_success_response bookCfgEx bookWorldEx bookReqEx
     { year := 2025, month := 6, day := 2, hour := 15 }
     { id := some "bev1" } "bev1" (by decide) rfl rfl rfl⟩

end SfnwBackend
